import Mathlib

/-!
Shallow embedding of the fel-cli command model and dispatcher
(src/config.rs `Config::get_command_from_cli` and src/main.rs `run` / `hex_dump`).

Machine integers (u32, u8, usize) are embedded as `Nat`; wherever the Rust code
can overflow, the release-mode wrapping semantics is made explicit with `% U32_MOD`.
String-to-integer parsing is out of scope (the spec treats inputs as already
typed), so the construction functions below take the already-parsed numeric
values and token shapes that the parsing layer produces.
-/

namespace FelCli

/-- Modulus of Rust's u32 type. -/
def U32_MOD : Nat := 2 ^ 32

/-- Rust's `u32::MAX`, the top of the 32-bit address space. -/
def MAX_ADDRESS : Nat := 2 ^ 32 - 1

/-- Bytes per hex-dump line (`HEX_DUMP_LINE` in src/main.rs, `0x10`). -/
def HEX_DUMP_LINE : Nat := 0x10

/-- Data to write (`WriteData` in src/config.rs): an inline 32-bit word or an
input file path. -/
inductive WriteData where
  | word (w : Nat)
  | file (path : String)
deriving DecidableEq, Repr

/-- CLI command (`Command` in src/config.rs). -/
inductive Command where
  | dump (address : Option Nat) (size : Option Nat) (hex : Bool) (sid : Bool)
      (out : Option String)
  | write (addresses : List Nat) (data : List WriteData)
  | execute (address : Nat)
  | reset64 (address : Nat)
  | version
  | clear (address : Nat) (numBytes : Nat)
  | fill (address : Nat) (numBytes : Nat) (fillByte : Nat)
deriving DecidableEq, Repr

/-- Construction-time error. In the source every failure is
`ErrorKind::CLI(msg)` with a distinct message; we tag each distinct failure
site: `rangeError` for the "size/address exceeds the address space" messages,
`notFound` for "the file '...' does not exist", `invalidImage` for the
spec's InvalidImage. -/
inductive CfgError where
  | rangeError
  | notFound
  | invalidImage
deriving DecidableEq, Repr

/-- Embedding of the `dump` branch of `Config::get_command_from_cli`
(src/config.rs lines 105-161), after string parsing. When `sid` is present the
command is built with all other fields absent, ignoring the other inputs.
Otherwise, with a size present, the source checks `size > u32::MAX - addr + 1`
in u32 arithmetic: at `addr == 0` the expression `u32::MAX - addr + 1`
overflows u32 (wrapping to 0 in release builds; this embedding models the
wrapping semantics). -/
def getDumpCommand (sid : Bool) (addr : Nat) (size : Option Nat) (hex : Bool)
    (out : Option String) : Except CfgError Command :=
  if sid then
    Except.ok (Command.dump none none false true none)
  else
    match size with
    | some s =>
      if s > (MAX_ADDRESS - addr + 1) % U32_MOD then
        Except.error CfgError.rangeError
      else
        Except.ok (Command.dump (some addr) (some s) hex false out)
    | none => Except.ok (Command.dump (some addr) none hex false out)

/-- Embedding of the `clear` branch of `Config::get_command_from_cli`
(src/config.rs lines 263-298): the same u32 check `num_bytes > u32::MAX - addr + 1`,
wrapping at `addr == 0` exactly as in `getDumpCommand`. -/
def getClearCommand (addr numBytes : Nat) : Except CfgError Command :=
  if numBytes > (MAX_ADDRESS - addr + 1) % U32_MOD then
    Except.error CfgError.rangeError
  else
    Except.ok (Command.clear addr numBytes)

/-- Embedding of the `fill` branch of `Config::get_command_from_cli`
(src/config.rs lines 299-337). After parsing `addr`, `num_bytes` and
`fill_byte`, the source constructs `Command::Fill` directly: unlike the
`clear` branch, there is no range check on `num_bytes`. -/
def getFillCommand (addr numBytes fillByte : Nat) : Except CfgError Command :=
  Except.ok (Command.fill addr numBytes fillByte)

/-- A value token of the `write` subcommand after the integer-parsing attempt:
either it parsed as a u32 word, or parsing failed and it is reinterpreted as a
file path (src/config.rs lines 180-186). -/
inductive WriteToken where
  | word (w : Nat)
  | path (p : String)
deriving DecidableEq, Repr

/-- Embedding of one iteration of the `write` loop's value resolution
(src/config.rs lines 185-227). `meta` plays the filesystem's role: the byte
length of the file at a path, or `none` when the path does not exist. For a
word, the source requires `u32::MAX - 4 >= addr`. For a path, a missing file is
the "does not exist" error, and an existing file must satisfy
`metadata.len() <= (u32::MAX - addr + 1) as u64`, where `u32::MAX - addr + 1`
is computed in u32 (wrapping at `addr == 0`) before the cast to u64. -/
def getWriteItem (meta : String → Option Nat) (addr : Nat) (tok : WriteToken) :
    Except CfgError WriteData :=
  match tok with
  | WriteToken.word w =>
    if MAX_ADDRESS - 4 ≥ addr then
      Except.ok (WriteData.word w)
    else
      Except.error CfgError.rangeError
  | WriteToken.path p =>
    match meta p with
    | some len =>
      if len > (MAX_ADDRESS - addr + 1) % U32_MOD then
        Except.error CfgError.rangeError
      else
        Except.ok (WriteData.file p)
    | none => Except.error CfgError.notFound

/-- Embedding of the `write` branch of `Config::get_command_from_cli`
(src/config.rs lines 162-234): the loop consumes (address, value) pairs in
order, pushing one address and one data item per iteration, and returns the
first failure without processing later pairs. -/
def getWriteCommand (meta : String → Option Nat) :
    List (Nat × WriteToken) → Except CfgError (List Nat × List WriteData)
  | [] => Except.ok ([], [])
  | (addr, tok) :: rest =>
    match getWriteItem meta addr tok with
    | Except.error e => Except.error e
    | Except.ok d =>
      match getWriteCommand meta rest with
      | Except.error e => Except.error e
      | Except.ok (as, ds) => Except.ok (addr :: as, d :: ds)

/-- A device operation, as issued by the dispatcher `run` in src/main.rs.
Each constructor records the arguments of the corresponding `aw_fel` call. -/
inductive DeviceOp where
  | readSid
  | readWords (addr : Nat) (count : Nat)
  | felRead (addr : Nat) (size : Nat)
  | writeWords (addr : Nat) (words : List Nat)
  | felWrite (addr : Nat) (data : List Nat)
  | felExecute (addr : Nat)
  | rmrRequest (addr : Nat) (is64 : Bool)
  | getVersionInfo
  | felFill (addr : Nat) (numBytes : Nat) (byte : Nat)
deriving DecidableEq, Repr

/-- The device capability seen by the dispatcher: `ok` says whether a given
transport call succeeds, and `sid` is the result a successful `read_sid`
returns (`none` when the device has no SID registers). -/
structure Device where
  ok : DeviceOp → Bool
  sid : Option (List Nat)

/-- Dispatch-time error: `transport` for a failed device call, `noSid` for
the `bail!("the device does not have SID registers")` at src/main.rs line 110,
`notFound` for a failed `File::open` of a write item's path
(src/main.rs line 153). -/
inductive RunError where
  | transport
  | noSid
  | notFound
deriving DecidableEq, Repr

/-- Embedding of the `Command::Write` arm of `run` (src/main.rs lines 140-170)
over the zipped (address, data) pairs: issue the item's device write in order,
returning the ordered trace of issued device calls and the first failure, if
any. `contents` plays the filesystem's role at dispatch time: the byte list of
the file at a path, or `none` when opening it fails. A failed `File::open`
issues no device call for that item; the `?` operator stops the loop at the
first failure. -/
def runWriteItems (dev : Device) (contents : String → Option (List Nat)) :
    List (Nat × WriteData) → List DeviceOp × Option RunError
  | [] => ([], none)
  | (addr, WriteData.word w) :: rest =>
    if dev.ok (DeviceOp.writeWords addr [w]) then
      (DeviceOp.writeWords addr [w] :: (runWriteItems dev contents rest).1,
       (runWriteItems dev contents rest).2)
    else
      ([DeviceOp.writeWords addr [w]], some RunError.transport)
  | (addr, WriteData.file p) :: rest =>
    match contents p with
    | none => ([], some RunError.notFound)
    | some data =>
      if dev.ok (DeviceOp.felWrite addr data) then
        (DeviceOp.felWrite addr data :: (runWriteItems dev contents rest).1,
         (runWriteItems dev contents rest).2)
      else
        ([DeviceOp.felWrite addr data], some RunError.transport)

/-- Embedding of the command dispatcher `run` (src/main.rs lines 98-204),
returning the ordered trace of device calls and the first failure, if any.
Console and file output are not device calls and leave no trace. In the
`Dump` arms without `sid` the source calls `address.unwrap()`; commands built
by `getDumpCommand` always carry `some` there, embedded with `Option.getD`. -/
def runCommand (dev : Device) (contents : String → Option (List Nat)) :
    Command → List DeviceOp × Option RunError
  | Command.dump address size _hex sid _out =>
    if sid then
      if dev.ok DeviceOp.readSid then
        match dev.sid with
        | some _ => ([DeviceOp.readSid], none)
        | none => ([DeviceOp.readSid], some RunError.noSid)
      else
        ([DeviceOp.readSid], some RunError.transport)
    else
      match size with
      | some s =>
        let a := address.getD 0
        if dev.ok (DeviceOp.felRead a s) then
          ([DeviceOp.felRead a s], none)
        else
          ([DeviceOp.felRead a s], some RunError.transport)
      | none =>
        let a := address.getD 0
        if dev.ok (DeviceOp.readWords a 1) then
          ([DeviceOp.readWords a 1], none)
        else
          ([DeviceOp.readWords a 1], some RunError.transport)
  | Command.write addresses data =>
    runWriteItems dev contents (addresses.zip data)
  | Command.execute address =>
    if dev.ok (DeviceOp.felExecute address) then
      ([DeviceOp.felExecute address], none)
    else
      ([DeviceOp.felExecute address], some RunError.transport)
  | Command.reset64 address =>
    if dev.ok (DeviceOp.rmrRequest address true) then
      ([DeviceOp.rmrRequest address true], none)
    else
      ([DeviceOp.rmrRequest address true], some RunError.transport)
  | Command.version => ([DeviceOp.getVersionInfo], none)
  | Command.clear address numBytes =>
    if dev.ok (DeviceOp.felFill address numBytes 0x00) then
      ([DeviceOp.felFill address numBytes 0x00], none)
    else
      ([DeviceOp.felFill address numBytes 0x00], some RunError.transport)
  | Command.fill address numBytes fillByte =>
    if dev.ok (DeviceOp.felFill address numBytes fillByte) then
      ([DeviceOp.felFill address numBytes fillByte], none)
    else
      ([DeviceOp.felFill address numBytes fillByte], some RunError.transport)

/-- The single device call a successfully dispatched write item issues
(src/main.rs lines 142-169): a word item writes one word; a file item bulk
writes the file's contents. -/
def itemOp (contents : String → Option (List Nat)) : Nat × WriteData → DeviceOp
  | (addr, WriteData.word w) => DeviceOp.writeWords addr [w]
  | (addr, WriteData.file p) => DeviceOp.felWrite addr ((contents p).getD [])

/-- Lowercase hexadecimal digit character for a value below 16. -/
def hexDigitChar (n : Nat) : Char :=
  match n with
  | 0 => '0' | 1 => '1' | 2 => '2' | 3 => '3'
  | 4 => '4' | 5 => '5' | 6 => '6' | 7 => '7'
  | 8 => '8' | 9 => '9' | 10 => 'a' | 11 => 'b'
  | 12 => 'c' | 13 => 'd' | 14 => 'e' | _ => 'f'

/-- Rust's `{:02x}` formatting of a byte: exactly two lowercase hex digits
for values below 256. -/
def hex2 (b : Nat) : String :=
  String.mk [hexDigitChar (b / 16 % 16), hexDigitChar (b % 16)]

/-- Rust's `{:08x}` formatting of a u32: exactly eight lowercase hex digits
for values below 2^32. -/
def hex8 (n : Nat) : String :=
  String.mk
    [hexDigitChar (n / 16 ^ 7 % 16), hexDigitChar (n / 16 ^ 6 % 16),
     hexDigitChar (n / 16 ^ 5 % 16), hexDigitChar (n / 16 ^ 4 % 16),
     hexDigitChar (n / 16 ^ 3 % 16), hexDigitChar (n / 16 ^ 2 % 16),
     hexDigitChar (n / 16 % 16), hexDigitChar (n % 16)]

/-- The ASCII-column character of a byte (src/main.rs lines 223-227): the
character itself for printable bytes in [0x20, 0x7E], otherwise a dot. -/
def asciiChar (b : Nat) : Char :=
  if b ≥ 0x20 ∧ b ≤ 0x7E then Char.ofNat b else '.'

/-- Concatenation of a list of strings, in order. -/
def strJoin : List String → String
  | [] => ""
  | s :: rest => s ++ strJoin rest

/-- One rendered hex-dump line (the body of the loop in `hex_dump`,
src/main.rs lines 215-233): the line's start address as `{:08x}`, a colon,
the chunk's bytes as `{:02x} ` pairs followed by `"__ "` for each of the
`extra = HEX_DUMP_LINE - chunk.len()` missing positions, then a space and
the ASCII column, a dot standing for each missing position. -/
def hexDumpLine (startAddress : Nat) (chunk : List Nat) : String :=
  hex8 startAddress ++ ": " ++
    strJoin (chunk.map (fun b => hex2 b ++ " ") ++
      List.replicate (HEX_DUMP_LINE - chunk.length) "__ ") ++
    " " ++
    String.mk (chunk.map asciiChar ++
      List.replicate (HEX_DUMP_LINE - chunk.length) '.')

/-- Embedding of `hex_dump` (src/main.rs lines 214-235), returning the printed
lines. Rust's `chunks(HEX_DUMP_LINE)` yields `ceil(len / HEX_DUMP_LINE)`
chunks, chunk `i` being `data[16*i .. 16*i + 16]`; the line address is
`offset + (i * HEX_DUMP_LINE) as u32` computed in u32, hence the wrapping
`% U32_MOD` on the usize-to-u32 cast and on the u32 addition. -/
def hexDump (data : List Nat) (offset : Nat) : List String :=
  (List.range ((data.length + (HEX_DUMP_LINE - 1)) / HEX_DUMP_LINE)).map
    (fun i =>
      hexDumpLine ((offset + (i * HEX_DUMP_LINE) % U32_MOD) % U32_MOD)
        ((data.drop (i * HEX_DUMP_LINE)).take HEX_DUMP_LINE))

/-- One hex-dump line as the specification words it: exactly
`HEX_DUMP_LINE` columns, a real byte rendering as its two-digit pair and its
printable-ASCII character, a missing position rendering as the `"__ "`
placeholder and a dot. -/
def hexLineSpec (lineAddr : Nat) (cols : List (Option Nat)) : String :=
  hex8 lineAddr ++ ": " ++
    strJoin (cols.map (fun c =>
      match c with
      | some b => hex2 b ++ " "
      | none => "__ ")) ++
    " " ++
    String.mk (cols.map (fun c =>
      match c with
      | some b => asciiChar b
      | none => '.'))

/-- Hex-dump rendering as the specification words it: `ceil(len / 16)` lines,
line `i` addressed at `offset + 16 * i`, its 16 columns holding the bytes at
indices `16 * i + j` of the buffer when present. -/
def hexDumpSpec (data : List Nat) (offset : Nat) : List String :=
  (List.range ((data.length + (HEX_DUMP_LINE - 1)) / HEX_DUMP_LINE)).map
    (fun i =>
      hexLineSpec (offset + HEX_DUMP_LINE * i)
        ((List.range HEX_DUMP_LINE).map
          (fun j => data[HEX_DUMP_LINE * i + j]?)))

/-- Modelled from the spec: the Uboot command is absent from src/ (the
`Command` enum in src/config.rs has no Uboot variant and src/main.rs has no
arm for it); this follows §3 of the spec: "Uboot { image_bytes, start }". -/
structure UbootCmd where
  imageBytes : List Nat
  start : Bool
deriving DecidableEq, Repr

/-- Modelled from the spec: BuildUboot (§4.1) is absent from src/. "if `start`
is true, require `len(file_bytes)` > STAGE1_LEN_LIMIT (a fixed constant);
otherwise fail with `InvalidImage`". The constant's value is not given by the
spec, so it is a parameter `stage1Limit`. -/
def buildUboot (stage1Limit : Nat) (fileBytes : List Nat) (start : Bool) :
    Except CfgError UbootCmd :=
  if start ∧ ¬ fileBytes.length > stage1Limit then
    Except.error CfgError.invalidImage
  else
    Except.ok ⟨fileBytes, start⟩

/-- Modelled from the spec: the device operations of the Uboot flow (§6),
absent from src/. -/
inductive UbootOp where
  | writeAndExecuteStage1 (bytes : List Nat)
  | writeStage2Image (bytes : List Nat)
  | execute (addr : Nat)
deriving DecidableEq, Repr

/-- Modelled from the spec: the Uboot dispatch (§4.2), absent from src/.
Write the leading `stage1Limit` bytes (or the whole image when shorter) as the
stage-1 loader and execute it; when the image is longer, write the rest as the
stage-2 image, the device returning entry point `stage2Entry`; execute there
only when `start` was requested. Returns the ordered device-call trace. -/
def runUboot (stage1Limit stage2Entry : Nat) (cmd : UbootCmd) : List UbootOp :=
  let stage1 := UbootOp.writeAndExecuteStage1 (cmd.imageBytes.take stage1Limit)
  if cmd.imageBytes.length > stage1Limit then
    stage1 :: UbootOp.writeStage2Image (cmd.imageBytes.drop stage1Limit) ::
      (if cmd.start then [UbootOp.execute stage2Entry] else [])
  else
    [stage1]

/-- Modelled from the spec: the build-then-dispatch pipeline for Uboot, absent
from src/. A construction failure reaches no device call at all. -/
def ubootPipeline (stage1Limit stage2Entry : Nat) (fileBytes : List Nat)
    (start : Bool) : List UbootOp × Option CfgError :=
  match buildUboot stage1Limit fileBytes start with
  | Except.error e => ([], some e)
  | Except.ok cmd => (runUboot stage1Limit stage2Entry cmd, none)

/-- Appending further items after a prefix whose dispatch succeeds runs the
prefix first and then the rest, in order. -/
theorem runWriteItems_append_of_ok (dev : Device)
    (contents : String → Option (List Nat)) (l1 l2 : List (Nat × WriteData))
    (h : (runWriteItems dev contents l1).2 = none) :
    runWriteItems dev contents (l1 ++ l2) =
      ((runWriteItems dev contents l1).1 ++ (runWriteItems dev contents l2).1,
       (runWriteItems dev contents l2).2) := by
  induction l1 with
  | nil => simp [runWriteItems]
  | cons item rest ih =>
    obtain ⟨addr, d⟩ := item
    cases d with
    | word w =>
      by_cases hok : dev.ok (DeviceOp.writeWords addr [w])
      · simp only [runWriteItems, hok, if_true] at h
        simp [runWriteItems, hok, ih h]
      · simp [runWriteItems, hok] at h
    | file p =>
      cases hc : contents p with
      | none => simp [runWriteItems, hc] at h
      | some data =>
        by_cases hok : dev.ok (DeviceOp.felWrite addr data)
        · simp only [runWriteItems, hc, hok, if_true] at h
          simp [runWriteItems, hc, hok, ih h]
        · simp [runWriteItems, hc, hok] at h

/-- Once a prefix's dispatch fails, items appended after it change nothing:
they are never attempted. -/
theorem runWriteItems_append_of_err (dev : Device)
    (contents : String → Option (List Nat)) (l1 l2 : List (Nat × WriteData))
    (e : RunError) (h : (runWriteItems dev contents l1).2 = some e) :
    runWriteItems dev contents (l1 ++ l2) = runWriteItems dev contents l1 := by
  induction l1 with
  | nil => simp [runWriteItems] at h
  | cons item rest ih =>
    obtain ⟨addr, d⟩ := item
    cases d with
    | word w =>
      by_cases hok : dev.ok (DeviceOp.writeWords addr [w])
      · simp only [runWriteItems, hok, if_true] at h
        simp [runWriteItems, hok, ih h]
      · simp [runWriteItems, hok]
    | file p =>
      cases hc : contents p with
      | none => simp [runWriteItems, hc]
      | some data =>
        by_cases hok : dev.ok (DeviceOp.felWrite addr data)
        · simp only [runWriteItems, hc, hok, if_true] at h
          simp [runWriteItems, hc, hok, ih h]
        · simp [runWriteItems, hc, hok]

/-- A fully successful dispatch issues exactly the items' device calls, one
per item, in the items' order. -/
theorem runWriteItems_trace_of_ok (dev : Device)
    (contents : String → Option (List Nat)) (l : List (Nat × WriteData))
    (h : (runWriteItems dev contents l).2 = none) :
    (runWriteItems dev contents l).1 = l.map (itemOp contents) := by
  induction l with
  | nil => simp [runWriteItems]
  | cons item rest ih =>
    obtain ⟨addr, d⟩ := item
    cases d with
    | word w =>
      by_cases hok : dev.ok (DeviceOp.writeWords addr [w])
      · simp only [runWriteItems, hok, if_true] at h
        simp [runWriteItems, hok, itemOp, ih h]
      · simp [runWriteItems, hok] at h
    | file p =>
      cases hc : contents p with
      | none => simp [runWriteItems, hc] at h
      | some data =>
        by_cases hok : dev.ok (DeviceOp.felWrite addr data)
        · simp only [runWriteItems, hc, hok, if_true] at h
          simp [runWriteItems, hc, hok, itemOp, ih h]
        · simp [runWriteItems, hc, hok] at h

/-- C6: dispatching a Write issues its items' device writes in construction
order — a successful prefix contributes exactly its items' calls, in order,
before any call of the rest — and once an item fails, no device call is ever
issued for any later item, with no rollback of the prefix's calls. -/
theorem write_dispatch_ordered_fail_fast (dev : Device)
    (contents : String → Option (List Nat)) (as1 : List Nat)
    (ds1 : List WriteData) (as2 : List Nat) (ds2 : List WriteData)
    (h : as1.length = ds1.length) :
    ((runWriteItems dev contents (as1.zip ds1)).2 = none →
        runCommand dev contents (Command.write (as1 ++ as2) (ds1 ++ ds2)) =
          ((as1.zip ds1).map (itemOp contents) ++
             (runWriteItems dev contents (as2.zip ds2)).1,
           (runWriteItems dev contents (as2.zip ds2)).2))
    ∧ (∀ e, (runWriteItems dev contents (as1.zip ds1)).2 = some e →
        runCommand dev contents (Command.write (as1 ++ as2) (ds1 ++ ds2)) =
          runWriteItems dev contents (as1.zip ds1)) := by
  have hzip : (as1 ++ as2).zip (ds1 ++ ds2) = as1.zip ds1 ++ as2.zip ds2 :=
    List.zip_append h
  constructor
  · intro hnone
    show runWriteItems dev contents ((as1 ++ as2).zip (ds1 ++ ds2)) = _
    rw [hzip, runWriteItems_append_of_ok dev contents _ _ hnone,
      runWriteItems_trace_of_ok dev contents _ hnone]
  · intro e he
    show runWriteItems dev contents ((as1 ++ as2).zip (ds1 ++ ds2)) = _
    rw [hzip, runWriteItems_append_of_err dev contents _ _ e he]

/-- Witness for C6: a two-item write on an all-accepting device, split as a
one-item prefix plus a one-item rest. -/
theorem write_dispatch_ordered_fail_fast_witness :
    runCommand ⟨fun _ => true, none⟩ (fun _ => some [7])
      (Command.write ([0x10] ++ [0x20])
        ([WriteData.word 1] ++ [WriteData.word 2])) =
      ((([0x10].zip [WriteData.word 1]).map (itemOp (fun _ => some [7])) ++
          (runWriteItems ⟨fun _ => true, none⟩ (fun _ => some [7])
            ([0x20].zip [WriteData.word 2])).1),
       (runWriteItems ⟨fun _ => true, none⟩ (fun _ => some [7])
         ([0x20].zip [WriteData.word 2])).2) :=
  (write_dispatch_ordered_fail_fast ⟨fun _ => true, none⟩ (fun _ => some [7])
    [0x10] [WriteData.word 1] [0x20] [WriteData.word 2] rfl).1 rfl

/-- C10: a successfully constructed Write command carries as many addresses as
data items, so the dispatcher's zip of the two lists drops nothing. -/
theorem write_lengths_invariant (meta : String → Option Nat)
    (input : List (Nat × WriteToken)) (as : List Nat) (ds : List WriteData)
    (h : getWriteCommand meta input = Except.ok (as, ds)) :
    as.length = ds.length ∧ (as.zip ds).length = as.length := by
  suffices hlen : as.length = ds.length by
    refine ⟨hlen, ?_⟩
    simp [List.length_zip, hlen]
  induction input generalizing as ds with
  | nil =>
    simp only [getWriteCommand, Except.ok.injEq, Prod.mk.injEq] at h
    obtain ⟨h1, h2⟩ := h
    subst h1
    subst h2
    rfl
  | cons itm rest ih =>
    obtain ⟨addr, tok⟩ := itm
    cases hi : getWriteItem meta addr tok with
    | error e => simp [getWriteCommand, hi] at h
    | ok d =>
      cases hr : getWriteCommand meta rest with
      | error e => simp [getWriteCommand, hi, hr] at h
      | ok pr =>
        obtain ⟨as', ds'⟩ := pr
        simp only [getWriteCommand, hi, hr, Except.ok.injEq, Prod.mk.injEq] at h
        obtain ⟨h1, h2⟩ := h
        subst h1
        subst h2
        simp [ih as' ds' hr]

/-- Witness for C10 at a concrete two-item write input. -/
theorem write_lengths_invariant_witness :
    ([0x1000, 0x2000] : List Nat).length =
      ([WriteData.word 5, WriteData.file "f"] : List WriteData).length
    ∧ (([0x1000, 0x2000] : List Nat).zip
        [WriteData.word 5, WriteData.file "f"]).length =
      ([0x1000, 0x2000] : List Nat).length :=
  write_lengths_invariant (fun _ => some 3)
    [(0x1000, WriteToken.word 5), (0x2000, WriteToken.path "f")] _ _ (by rfl)

/-- C1: the claim says Dump/Clear construction computes the maximum size with
saturating arithmetic, so at address 0 every size up to 2^32 is accepted. The
code computes `u32::MAX - addr + 1` in u32, which at address 0 wraps to 0
(release) or overflows (debug), so the in-range pair (address 0, size 1),
whose last byte 0 + 1 - 1 is at most MAX_ADDRESS, is rejected with the range
error by both the dump and the clear branches. -/
theorem dump_clear_zero_address_rejects_all_sizes :
    getDumpCommand false 0 (some 1) false none = Except.error CfgError.rangeError
    ∧ getClearCommand 0 1 = Except.error CfgError.rangeError
    ∧ 0 + 1 - 1 ≤ MAX_ADDRESS := by
  refine ⟨?_, ?_, by decide⟩ <;> rfl

/-- C2: building a Uboot command from an image of length at most the stage-1
limit, with start requested, fails with InvalidImage, and the pipeline reaches
no device call. (The Uboot flow is modelled from the spec; it is absent from
src/.) -/
theorem uboot_small_image_invalid_no_device_call (stage1Limit stage2Entry : Nat)
    (fileBytes : List Nat) (h : fileBytes.length ≤ stage1Limit) :
    ubootPipeline stage1Limit stage2Entry fileBytes true =
      ([], some CfgError.invalidImage) := by
  have hng : ¬ fileBytes.length > stage1Limit := Nat.not_lt.mpr h
  simp [ubootPipeline, buildUboot, hng]

/-- Witness for C2 at a concrete image of 3 bytes and limit 32768. -/
theorem uboot_small_image_invalid_no_device_call_witness :
    ubootPipeline 32768 0x4a000000 [0x10, 0x20, 0x30] true =
      ([], some CfgError.invalidImage) :=
  uboot_small_image_invalid_no_device_call 32768 0x4a000000 _ (by decide)

/-- C3: the claim says BuildFill enforces the same range check as BuildClear.
The fill branch of the source performs no range check: at address u32::MAX
with num_bytes 2 (which exceeds the maximum size 1 from that address) the
fill command is constructed, while the clear branch rejects the same pair. -/
theorem fill_constructs_out_of_range :
    getFillCommand MAX_ADDRESS 2 0xAB =
      Except.ok (Command.fill MAX_ADDRESS 2 0xAB)
    ∧ 2 > MAX_ADDRESS - MAX_ADDRESS + 1
    ∧ getClearCommand MAX_ADDRESS 2 = Except.error CfgError.rangeError := by
  refine ⟨rfl, by decide, ?_⟩
  rfl

/-- C4: dispatching a multi-item Write whose first item is a word and whose
second references a missing file performs the word write, fails on the second
item with the file-not-found error, and issues nothing for the third item. -/
theorem write_word_then_missing_file :
    runCommand ⟨fun _ => true, none⟩
      (fun p => if p = "missing.bin" then none else some [0x11])
      (Command.write [0x1000, 0x2000, 0x3000]
        [WriteData.word 0xAABBCCDD, WriteData.file "missing.bin",
         WriteData.word 0x1]) =
      ([DeviceOp.writeWords 0x1000 [0xAABBCCDD]], some RunError.notFound) := by
  rfl

/-- C5: a word write item is accepted, producing the word WriteItem, exactly
for addresses up to u32::MAX - 4 inclusive, and rejected with the range error
for every larger address. -/
theorem write_word_address_range (meta : String → Option Nat) (addr w : Nat) :
    (addr ≤ MAX_ADDRESS - 4 →
      getWriteItem meta addr (WriteToken.word w) = Except.ok (WriteData.word w))
    ∧ (MAX_ADDRESS - 4 < addr →
      getWriteItem meta addr (WriteToken.word w) =
        Except.error CfgError.rangeError) := by
  constructor
  · intro h
    simp [getWriteItem, h]
  · intro h
    simp [getWriteItem, Nat.not_le.mpr h, Nat.lt_irrefl]

/-- Witness for C5 at the boundary address u32::MAX - 4 and just above it. -/
theorem write_word_address_range_witness :
    getWriteItem (fun _ => none) (MAX_ADDRESS - 4) (WriteToken.word 0xAABBCCDD) =
      Except.ok (WriteData.word 0xAABBCCDD)
    ∧ getWriteItem (fun _ => none) (MAX_ADDRESS - 3) (WriteToken.word 0xAABBCCDD) =
      Except.error CfgError.rangeError :=
  ⟨(write_word_address_range (fun _ => none) (MAX_ADDRESS - 4) 0xAABBCCDD).1
      (by decide),
   (write_word_address_range (fun _ => none) (MAX_ADDRESS - 3) 0xAABBCCDD).2
      (by decide)⟩

/-- C8: a Dump built with sid carries no address, size, hex flag or output
path regardless of the other inputs; dispatching it issues only the SID
query; and on a device whose SID query succeeds with no SID registers the
result is the error value, produced by a total function (no panic). -/
theorem dump_sid_only_queries_sid (addr : Nat) (size : Option Nat)
    (hex : Bool) (out : Option String) (dev : Device)
    (contents : String → Option (List Nat)) :
    getDumpCommand true addr size hex out =
      Except.ok (Command.dump none none false true none)
    ∧ (runCommand dev contents (Command.dump none none false true none)).1 =
        [DeviceOp.readSid]
    ∧ (dev.ok DeviceOp.readSid = true → dev.sid = none →
        runCommand dev contents (Command.dump none none false true none) =
          ([DeviceOp.readSid], some RunError.noSid)) := by
  refine ⟨rfl, ?_, ?_⟩
  · by_cases h : dev.ok DeviceOp.readSid <;>
      cases hs : dev.sid <;> simp [runCommand, h, hs]
  · intro h1 h2
    simp [runCommand, h1, h2]

/-- Witness for C8 on a device whose calls succeed but that has no SID
registers. -/
theorem dump_sid_only_queries_sid_witness :
    getDumpCommand true 0x1000 (some 4) true (some "o") =
      Except.ok (Command.dump none none false true none)
    ∧ runCommand ⟨fun _ => true, none⟩ (fun _ => none)
        (Command.dump none none false true none) =
        ([DeviceOp.readSid], some RunError.noSid) :=
  ⟨(dump_sid_only_queries_sid 0x1000 (some 4) true (some "o")
      ⟨fun _ => true, none⟩ (fun _ => none)).1,
   (dump_sid_only_queries_sid 0x1000 (some 4) true (some "o")
      ⟨fun _ => true, none⟩ (fun _ => none)).2.2 rfl rfl⟩

/-- C9: dispatching Fill issues exactly one region-fill device call with the
given byte, and dispatching Clear is the same dispatch as Fill with byte 0. -/
theorem fill_clear_single_fill_call (dev : Device)
    (contents : String → Option (List Nat)) (a n b : Nat) :
    (runCommand dev contents (Command.fill a n b)).1 = [DeviceOp.felFill a n b]
    ∧ runCommand dev contents (Command.clear a n) =
        runCommand dev contents (Command.fill a n 0x00) := by
  refine ⟨?_, rfl⟩
  by_cases h : dev.ok (DeviceOp.felFill a n b) <;> simp [runCommand, h]

/-- Indexing the first n positions of a list pads the positions past its end
with none. -/
theorem range_map_getElem (n : Nat) (l : List Nat) (h : l.length ≤ n) :
    (List.range n).map (fun j => l[j]?) =
      l.map some ++ List.replicate (n - l.length) none := by
  induction l generalizing n with
  | nil => simp
  | cons a t ih =>
    cases n with
    | zero => simp at h
    | succ m =>
      rw [List.range_succ_eq_map, List.map_cons, List.map_map]
      have hcomp : ((fun j => (a :: t)[j]?) ∘ Nat.succ) = fun j => t[j]? := by
        funext j
        simp
      rw [hcomp, ih m (Nat.le_of_succ_le_succ h)]
      simp [Nat.succ_sub_succ]

/-- The 16 columns of hex-dump line starting at buffer index s are the
corresponding 16-byte chunk of the buffer followed by none for each missing
position. -/
theorem range_map_getElem_chunk (data : List Nat) (s : Nat) :
    (List.range HEX_DUMP_LINE).map (fun j => data[s + j]?) =
      ((data.drop s).take HEX_DUMP_LINE).map some ++
        List.replicate
          (HEX_DUMP_LINE - ((data.drop s).take HEX_DUMP_LINE).length) none := by
  have hstep : ∀ j ∈ List.range HEX_DUMP_LINE,
      data[s + j]? = ((data.drop s).take HEX_DUMP_LINE)[j]? := by
    intro j hj
    rw [List.mem_range] at hj
    rw [List.getElem?_take]
    simp [hj, List.getElem?_drop]
  rw [List.map_congr_left hstep]
  exact range_map_getElem _ _ (List.length_take_le _ _)

/-- In-range line addresses suffer no u32 wrap: for a buffer whose end fits
in the address space, the source's wrapped address computation for line i
equals offset + 16 * i. -/
theorem hexDump_line_addr (offset len i : Nat) (h : offset + len ≤ U32_MOD)
    (hi : i < (len + (HEX_DUMP_LINE - 1)) / HEX_DUMP_LINE) :
    (offset + (i * HEX_DUMP_LINE) % U32_MOD) % U32_MOD =
      offset + HEX_DUMP_LINE * i := by
  have hmod : U32_MOD = 4294967296 := rfl
  have hline : HEX_DUMP_LINE = 16 := rfl
  rw [hline] at hi ⊢
  have h16 : (i + 1) * 16 ≤ len + 15 := by
    have h1 := (Nat.le_div_iff_mul_le (by norm_num)).mp (Nat.succ_le_of_lt hi)
    simpa using h1
  have hlt : 16 * i < len := by omega
  have hinner : i * 16 < U32_MOD := by omega
  rw [Nat.mod_eq_of_lt hinner, Nat.mod_eq_of_lt (by omega)]
  omega

/-- A spec line whose columns are a chunk's bytes padded with none renders
exactly as the source's line for that chunk. -/
theorem hexLineSpec_eq_hexDumpLine (addr : Nat) (chunk : List Nat) :
    hexLineSpec addr (chunk.map some ++
        List.replicate (HEX_DUMP_LINE - chunk.length) none) =
      hexDumpLine addr chunk := by
  simp only [hexLineSpec, hexDumpLine, List.map_append, List.map_map,
    List.map_replicate]
  rfl

/-- C7: for a buffer whose end fits in the 32-bit address space, the source's
hex-dump rendering coincides with the specification's: ceil(len/16) lines,
line i addressed at offset + 16*i, 16 columns per line with real bytes as
two-digit pairs and their printable-ASCII characters, and missing positions
as the placeholder pair and a dot. -/
theorem hex_dump_matches_spec (data : List Nat) (offset : Nat)
    (h : offset + data.length ≤ U32_MOD) :
    hexDump data offset = hexDumpSpec data offset := by
  unfold hexDump hexDumpSpec
  apply List.map_congr_left
  intro i hi
  rw [List.mem_range] at hi
  rw [hexDump_line_addr offset data.length i h hi,
    range_map_getElem_chunk data (HEX_DUMP_LINE * i),
    Nat.mul_comm HEX_DUMP_LINE i]
  exact (hexLineSpec_eq_hexDumpLine _ _).symm

/-- Witness for C7: the specification's 20-byte buffer at offset 0x1000. -/
theorem hex_dump_matches_spec_witness :
    0x1000 + (List.replicate 20 0x41).length ≤ U32_MOD
    ∧ hexDump (List.replicate 20 0x41) 0x1000 =
        hexDumpSpec (List.replicate 20 0x41) 0x1000 :=
  ⟨by decide, hex_dump_matches_spec (List.replicate 20 0x41) 0x1000 (by decide)⟩

end FelCli
